import Mathlib

set_option maxHeartbeats 1000000

/-! Shallow embedding of the snake game core (constants.ts and the App
component's game logic): data model, direction buffer, and the tick engine. -/

/-- A grid cell: the source `Coordinate` type, an integer pair. -/
@[ext]
structure Coordinate where
  x : Int
  y : Int
deriving DecidableEq, Repr

/-- Constant `GRID_SIZE = 20` from constants.ts (20x20 grid). -/
def GRID_SIZE : Int := 20

/-- Constant `INITIAL_SPEED = 150` ms per tick, from constants.ts. -/
def INITIAL_SPEED : Nat := 150

/-- Constant `MIN_SPEED = 60`, the lowest tick interval, from constants.ts. -/
def MIN_SPEED : Nat := 60

/-- Constant `SPEED_DECREMENT = 2` ms removed per food eaten, from constants.ts. -/
def SPEED_DECREMENT : Nat := 2

/-- The source `Direction` enum. -/
inductive Direction where
  | UP
  | DOWN
  | LEFT
  | RIGHT
deriving DecidableEq, Repr

/-- The source `GameStatus` enum. -/
inductive GameStatus where
  | IDLE
  | PLAYING
  | PAUSED
  | GAME_OVER
deriving DecidableEq, Repr

/-- The source death-cause union type `'WALL' | 'SELF'` (nullable where used). -/
inductive DeathReason where
  | WALL
  | SELF
deriving DecidableEq, Repr

/-- The source `GameState` record. -/
structure GameState where
  snake : List Coordinate
  food : Coordinate
  direction : Direction
  score : Nat
  highScore : Nat
  status : GameStatus
  speed : Nat
  deathReason : Option DeathReason
deriving DecidableEq, Repr

/-- Source helper `isAtCoordinate`: whether a coordinate occurs among the
segments of a list (field-wise comparison, as in the source `arr.some`). -/
def isAtCoordinate (coord : Coordinate) (arr : List Coordinate) : Bool :=
  arr.any fun seg => seg.x == coord.x && seg.y == coord.y

/-- Source helper `generateFood`: rejection sampling of a food cell.  The JS
draws a fresh random cell in an unbounded `while (true)` loop, rejecting cells
on the snake; here the stream of random draws is passed explicitly, and
exhausting the stream yields `none`. -/
def generateFood (rands : List Coordinate) (snake : List Coordinate) : Option Coordinate :=
  match rands with
  | [] => none
  | newFood :: rest =>
    if isAtCoordinate newFood snake then generateFood rest snake else some newFood

/-- The head displacement performed by the tick's `switch (currentDir)`. -/
def moveHead (dir : Direction) (head : Coordinate) : Coordinate :=
  match dir with
  | Direction.UP => { head with y := head.y - 1 }
  | Direction.DOWN => { head with y := head.y + 1 }
  | Direction.LEFT => { head with x := head.x - 1 }
  | Direction.RIGHT => { head with x := head.x + 1 }

/-- The tick body once the `status === PLAYING` guard has passed and the snake
has been split into `head :: restSnake` (the source reads `prev.snake[0]` and
`prev.snake[prev.snake.length - 1]`).  The second component of the result is
the list of values handed to the persistence collaborator
(`localStorage.setItem`) during this tick.  `none` means the food rejection
sampling exhausted its stream of random draws. -/
def tickPlaying (nextDir : Direction) (rands : List Coordinate) (prev : GameState)
    (head : Coordinate) (restSnake : List Coordinate) : Option (GameState × List Nat) :=
  let currentDir := nextDir
  let newHead := moveHead currentDir head
  if newHead.x < 0 ∨ GRID_SIZE ≤ newHead.x ∨ newHead.y < 0 ∨ GRID_SIZE ≤ newHead.y then
    some ({ prev with status := GameStatus.GAME_OVER, deathReason := some DeathReason.WALL }, [])
  else
    let tailSeg := (head :: restSnake).getLast (List.cons_ne_nil head restSnake)
    if isAtCoordinate newHead (head :: restSnake) ∧
        (newHead.x ≠ tailSeg.x ∨ newHead.y ≠ tailSeg.y) then
      some ({ prev with status := GameStatus.GAME_OVER, deathReason := some DeathReason.SELF }, [])
    else
      let newSnake := newHead :: head :: restSnake
      if newHead.x = prev.food.x ∧ newHead.y = prev.food.y then
        match generateFood rands newSnake with
        | none => none
        | some newFood =>
          let newScore := prev.score + 1
          let newSpeed := max MIN_SPEED (prev.speed - SPEED_DECREMENT)
          if newScore > prev.highScore then
            some ({ prev with
                    snake := newSnake
                    food := newFood
                    score := newScore
                    speed := newSpeed
                    highScore := newScore
                    direction := currentDir },
                  [newScore])
          else
            some ({ prev with
                    snake := newSnake
                    food := newFood
                    score := newScore
                    speed := newSpeed
                    direction := currentDir }, [])
      else
        let poppedSnake := newSnake.dropLast
        if (poppedSnake.drop 1).any (fun seg => seg.x == newHead.x && seg.y == newHead.y) then
          some ({ prev with status := GameStatus.GAME_OVER, deathReason := some DeathReason.SELF },
                [])
        else
          some ({ prev with snake := poppedSnake, direction := currentDir }, [])

/-- One game-loop tick: the `useInterval` callback of App.  `nextDir` is the
content of the React `nextDirection` buffer the tick consumes (the buffer
itself is not cleared by a tick). -/
def tick (nextDir : Direction) (rands : List Coordinate) (prev : GameState) :
    Option (GameState × List Nat) :=
  if prev.status ≠ GameStatus.PLAYING then some (prev, [])
  else
    match prev.snake with
    | [] => none
    | head :: restSnake => tickPlaying nextDir rands prev head restSnake

/-- Source callback `handleDirectionChange`: given the requested direction, the current game
state and the pending `nextDirection` buffer, returns the new buffer content.
A 180-degree reversal of the current authoritative heading is rejected; the
game state itself is returned unchanged by the source callback. -/
def handleDirectionChange (newDir : Direction) (current : GameState)
    (nextDirection : Direction) : Direction :=
  if (newDir = Direction.UP ∧ current.direction = Direction.DOWN) ∨
      (newDir = Direction.DOWN ∧ current.direction = Direction.UP) ∨
      (newDir = Direction.LEFT ∧ current.direction = Direction.RIGHT) ∨
      (newDir = Direction.RIGHT ∧ current.direction = Direction.LEFT) then
    nextDirection
  else
    newDir

/-- The axis reversal of a heading (the spec's notion of opposite). -/
def opposite (d : Direction) : Direction :=
  match d with
  | Direction.UP => Direction.DOWN
  | Direction.DOWN => Direction.UP
  | Direction.LEFT => Direction.RIGHT
  | Direction.RIGHT => Direction.LEFT

/-- Constant `INITIAL_SNAKE` from App. -/
def INITIAL_SNAKE : List Coordinate := [⟨10, 10⟩, ⟨10, 11⟩, ⟨10, 12⟩]

/-- Constant `INITIAL_STATE` from App. -/
def INITIAL_STATE : GameState :=
  { snake := INITIAL_SNAKE, food := ⟨5, 5⟩, direction := Direction.UP, score := 0,
    highScore := 0, status := GameStatus.IDLE, speed := INITIAL_SPEED, deathReason := none }

/-- Source callback `pauseGame`: toggles between PLAYING and PAUSED, otherwise does nothing. -/
def pauseGame (s : GameState) : GameState :=
  if s.status = GameStatus.PLAYING then { s with status := GameStatus.PAUSED }
  else if s.status = GameStatus.PAUSED then { s with status := GameStatus.PLAYING }
  else s

/-- Source callback `startGame`: full reset keeping only the high score; the second component
is the reset direction buffer (`setNextDirection(Direction.UP)`). -/
def startGame (rands : List Coordinate) (prev : GameState) :
    Option (GameState × Direction) :=
  match generateFood rands INITIAL_SNAKE with
  | none => none
  | some f =>
    some ({ INITIAL_STATE with
            highScore := prev.highScore
            status := GameStatus.PLAYING
            food := f }, Direction.UP)

/-- A cell lies on the board: the negation of the tick's wall check. -/
def inBounds (c : Coordinate) : Prop :=
  0 ≤ c.x ∧ c.x < GRID_SIZE ∧ 0 ≤ c.y ∧ c.y < GRID_SIZE

instance decInBounds (c : Coordinate) : Decidable (inBounds c) := by
  unfold inBounds
  exact inferInstance

/-! Basic lemmas about the helpers. -/

theorem isAtCoordinate_iff_mem (c : Coordinate) (l : List Coordinate) :
    isAtCoordinate c l = true ↔ c ∈ l := by
  unfold isAtCoordinate
  simp only [List.any_eq_true, Bool.and_eq_true, beq_iff_eq]
  constructor
  · rintro ⟨seg, hseg, hx, hy⟩
    exact (Coordinate.ext hx hy) ▸ hseg
  · intro hc
    exact ⟨c, hc, rfl, rfl⟩

theorem isAtCoordinate_eq_false_iff (c : Coordinate) (l : List Coordinate) :
    isAtCoordinate c l = false ↔ c ∉ l := by
  constructor
  · intro h hmem
    rw [(isAtCoordinate_iff_mem c l).mpr hmem] at h
    cases h
  · intro h
    cases hb : isAtCoordinate c l
    · rfl
    · exact absurd ((isAtCoordinate_iff_mem c l).mp hb) h

theorem generateFood_not_mem (rands snake : List Coordinate) (f : Coordinate)
    (h : generateFood rands snake = some f) : f ∉ snake := by
  induction rands with
  | nil => simp [generateFood] at h
  | cons r rest ih =>
    unfold generateFood at h
    by_cases hr : isAtCoordinate r snake = true
    · rw [if_pos hr] at h
      exact ih h
    · rw [if_neg hr] at h
      injection h with h'
      subst h'
      intro hmem
      exact hr ((isAtCoordinate_iff_mem _ _).mpr hmem)

theorem getLast_not_mem_dropLast (l : List Coordinate) (hl : l ≠ []) (hnd : l.Nodup) :
    l.getLast hl ∉ l.dropLast := by
  intro hmem
  have hsplit : l.dropLast ++ [l.getLast hl] = l := List.dropLast_append_getLast hl
  rw [← hsplit] at hnd
  exact List.disjoint_of_nodup_append hnd hmem (List.mem_singleton.mpr rfl)

/-- Claim C3: in a PLAYING state whose computed new head leaves the board, the
tick ends the game with death cause WALL and changes no other field of the
game state. -/
theorem tick_wall_death (nextDir : Direction) (rands : List Coordinate) (prev : GameState)
    (head : Coordinate) (restSnake : List Coordinate)
    (hstatus : prev.status = GameStatus.PLAYING)
    (hsnake : prev.snake = head :: restSnake)
    (hwall : ¬ inBounds (moveHead nextDir head)) :
    tick nextDir rands prev =
      some ({ prev with status := GameStatus.GAME_OVER, deathReason := some DeathReason.WALL },
            []) := by
  unfold tick
  rw [if_neg (fun hc => hc hstatus), hsnake]
  show tickPlaying nextDir rands prev head restSnake = _
  unfold tickPlaying
  rw [if_pos (by unfold inBounds GRID_SIZE at hwall; unfold GRID_SIZE; omega)]
  rw [hsnake]

/-- Claim C8: a tick on a state whose status is not PLAYING (IDLE, PAUSED or
GAME_OVER) returns the state unchanged and performs no persistence call. -/
theorem tick_non_playing_noop (nextDir : Direction) (rands : List Coordinate)
    (prev : GameState) (h : prev.status ≠ GameStatus.PLAYING) :
    tick nextDir rands prev = some (prev, []) := by
  unfold tick
  rw [if_pos h]

/-- Witness for claim C8 at the IDLE initial state. -/
theorem tick_non_playing_noop_witness :
    tick Direction.UP [] INITIAL_STATE = some (INITIAL_STATE, []) :=
  tick_non_playing_noop Direction.UP [] INITIAL_STATE (by decide)

/-- Claim C4: in a PLAYING state with a well-formed board, a tick whose new
head lands on a body coordinate other than the exact current tail coordinate
(and not on the food) ends the game with death cause SELF. -/
theorem tick_self_death_non_tail (nextDir : Direction) (rands : List Coordinate)
    (prev : GameState) (head : Coordinate) (restSnake : List Coordinate)
    (hstatus : prev.status = GameStatus.PLAYING)
    (hsnake : prev.snake = head :: restSnake)
    (hbounds : ∀ c ∈ prev.snake, inBounds c)
    (hmem : moveHead nextDir head ∈ prev.snake)
    (htail : moveHead nextDir head ≠
      (head :: restSnake).getLast (List.cons_ne_nil head restSnake))
    (hfood : moveHead nextDir head ≠ prev.food) :
    tick nextDir rands prev =
      some ({ prev with status := GameStatus.GAME_OVER, deathReason := some DeathReason.SELF },
            []) := by
  have hin : inBounds (moveHead nextDir head) := hbounds _ hmem
  unfold tick
  rw [if_neg (fun hc => hc hstatus), hsnake]
  show tickPlaying nextDir rands prev head restSnake = _
  unfold tickPlaying
  rw [if_neg (by unfold inBounds GRID_SIZE at hin; unfold GRID_SIZE; omega)]
  rw [if_pos ⟨(isAtCoordinate_iff_mem _ _).mpr (hsnake ▸ hmem), by
    by_cases hx : (moveHead nextDir head).x =
        ((head :: restSnake).getLast (List.cons_ne_nil head restSnake)).x
    · exact Or.inr fun hy => htail (Coordinate.ext hx hy)
    · exact Or.inl hx⟩]
  rw [hsnake]

/-- Claim C2: in a PLAYING state with a well-formed board, a tick whose new
head lands exactly on the current tail coordinate without eating is survived:
the status stays PLAYING and the body length is unchanged. -/
theorem tick_tail_chase_survives (nextDir : Direction) (rands : List Coordinate)
    (prev : GameState) (head : Coordinate) (restSnake : List Coordinate)
    (hstatus : prev.status = GameStatus.PLAYING)
    (hsnake : prev.snake = head :: restSnake)
    (hnodup : prev.snake.Nodup)
    (hbounds : ∀ c ∈ prev.snake, inBounds c)
    (htail : moveHead nextDir head =
      (head :: restSnake).getLast (List.cons_ne_nil head restSnake))
    (hfood : moveHead nextDir head ≠ prev.food) :
    ∃ next : GameState, tick nextDir rands prev = some (next, []) ∧
      next.status = GameStatus.PLAYING ∧ next.snake.length = prev.snake.length := by
  have hmem : moveHead nextDir head ∈ prev.snake := by
    rw [htail, hsnake]
    exact List.getLast_mem _
  have hin : inBounds (moveHead nextDir head) := hbounds _ hmem
  have hnotmem : moveHead nextDir head ∉ (head :: restSnake).dropLast := by
    rw [htail]
    exact getLast_not_mem_dropLast _ (List.cons_ne_nil _ _) (hsnake ▸ hnodup)
  refine ⟨{ prev with
            snake := (moveHead nextDir head :: head :: restSnake).dropLast
            direction := nextDir }, ?_, hstatus, ?_⟩
  · unfold tick
    rw [if_neg (fun hc => hc hstatus), hsnake]
    show tickPlaying nextDir rands prev head restSnake = _
    unfold tickPlaying
    rw [if_neg (by unfold inBounds GRID_SIZE at hin; unfold GRID_SIZE; omega)]
    rw [if_neg (fun hc => by
      rcases hc.2 with h | h
      · exact h (by rw [htail])
      · exact h (by rw [htail]))]
    rw [if_neg (fun hc => hfood (Coordinate.ext hc.1 hc.2))]
    rw [if_neg (by
      simp only [List.dropLast_cons₂, List.drop_succ_cons, List.drop_zero]
      intro hc
      exact hnotmem ((isAtCoordinate_iff_mem _ _).mp hc))]
  · simp [hsnake, List.length_dropLast]

/-- Claim C5: the direction-change handler leaves the pending heading
unchanged exactly when the requested heading is the opposite of the current
authoritative heading (the state's `direction` field, not the pending one),
and otherwise overwrites the single pending slot with the request. -/
theorem handleDirectionChange_spec (newDir : Direction) (current : GameState)
    (nextDirection : Direction) :
    handleDirectionChange newDir current nextDirection =
      if newDir = opposite current.direction then nextDirection else newDir := by
  cases hd : current.direction <;> cases newDir <;>
    simp [handleDirectionChange, opposite, hd]

/-- Claim C6: in a PLAYING state, an eating tick with no collision increments
the score by exactly 1, grows the body by exactly 1, places the new food off
the grown body, and sets the interval to the old one minus the decrement,
clamped at the minimum. -/
theorem tick_eat_growth (nextDir : Direction) (rands : List Coordinate)
    (prev : GameState) (head : Coordinate) (restSnake : List Coordinate)
    (hstatus : prev.status = GameStatus.PLAYING)
    (hsnake : prev.snake = head :: restSnake)
    (hfood : moveHead nextDir head = prev.food)
    (hnocol : moveHead nextDir head ∉ prev.snake)
    (hfb : inBounds prev.food) :
    ∀ (next : GameState) (saves : List Nat), tick nextDir rands prev = some (next, saves) →
      next.status = GameStatus.PLAYING ∧
      next.score = prev.score + 1 ∧
      next.snake.length = prev.snake.length + 1 ∧
      next.food ∉ next.snake ∧
      next.speed = max MIN_SPEED (prev.speed - SPEED_DECREMENT) ∧
      MIN_SPEED ≤ next.speed := by
  intro next saves h
  have hin : inBounds (moveHead nextDir head) := hfood ▸ hfb
  unfold tick at h
  rw [if_neg (fun hc => hc hstatus), hsnake] at h
  change tickPlaying nextDir rands prev head restSnake = some (next, saves) at h
  unfold tickPlaying at h
  rw [if_neg (by unfold inBounds GRID_SIZE at hin; unfold GRID_SIZE; omega)] at h
  rw [if_neg (fun hc =>
    hnocol (by rw [hsnake]; exact (isAtCoordinate_iff_mem _ _).mp hc.1))] at h
  rw [if_pos ⟨congrArg Coordinate.x hfood, congrArg Coordinate.y hfood⟩] at h
  cases hgf : generateFood rands (moveHead nextDir head :: head :: restSnake) with
  | none =>
    simp only [hgf] at h
    exact Option.noConfusion h
  | some newFood =>
    simp only [hgf] at h
    have hnf := generateFood_not_mem _ _ _ hgf
    split at h <;>
    · simp only [Option.some.injEq, Prod.mk.injEq] at h
      obtain ⟨rfl, rfl⟩ := h
      exact ⟨hstatus, rfl, by simp [hsnake], hnf, rfl, le_max_left _ _⟩

/-- The concrete eating-onto-the-tail configuration used for claim C1:
a two-segment snake with head `(5,5)`, tail `(5,6)`, and the food exactly at
the tail cell, moving DOWN. -/
def tailEatState : GameState :=
  { snake := [⟨5, 5⟩, ⟨5, 6⟩], food := ⟨5, 6⟩, direction := Direction.DOWN, score := 0,
    highScore := 0, status := GameStatus.PLAYING, speed := 150, deathReason := none }

/-- Claim C1 counterexample: at `tailEatState` the computed new head equals
both the current tail coordinate and the food coordinate, yet the tick does
not transition to GAME_OVER with cause SELF: the resulting status is PLAYING
(the strict pre-check exempts the exact tail even on an eating tick, and the
growth path performs no re-check). -/
theorem tick_tail_eat_not_self_death :
    moveHead Direction.DOWN ⟨5, 5⟩ = ⟨5, 6⟩ ∧
    tailEatState.snake.getLast? = some ⟨5, 6⟩ ∧
    tailEatState.food = ⟨5, 6⟩ ∧
    (tick Direction.DOWN [⟨0, 0⟩] tailEatState).map (fun p => p.1.status) =
      some GameStatus.PLAYING := by
  decide

/-- Claim C1 (amended): an eating tick whose new head equals the current tail
coordinate (food exactly at the tail position) is survived, not a SELF death:
the status stays PLAYING, the body grows by one (the new head duplicating the
tail cell), and the score increments. -/
theorem tick_tail_eat_survives (nextDir : Direction) (rands : List Coordinate)
    (prev : GameState) (head : Coordinate) (restSnake : List Coordinate)
    (hstatus : prev.status = GameStatus.PLAYING)
    (hsnake : prev.snake = head :: restSnake)
    (hbounds : ∀ c ∈ prev.snake, inBounds c)
    (htail : moveHead nextDir head =
      (head :: restSnake).getLast (List.cons_ne_nil head restSnake))
    (hfood : moveHead nextDir head = prev.food) :
    ∀ (next : GameState) (saves : List Nat), tick nextDir rands prev = some (next, saves) →
      next.status = GameStatus.PLAYING ∧
      next.snake.length = prev.snake.length + 1 ∧
      next.score = prev.score + 1 := by
  intro next saves h
  have hmem : moveHead nextDir head ∈ prev.snake := by
    rw [htail, hsnake]
    exact List.getLast_mem _
  have hin : inBounds (moveHead nextDir head) := hbounds _ hmem
  unfold tick at h
  rw [if_neg (fun hc => hc hstatus), hsnake] at h
  change tickPlaying nextDir rands prev head restSnake = some (next, saves) at h
  unfold tickPlaying at h
  rw [if_neg (by unfold inBounds GRID_SIZE at hin; unfold GRID_SIZE; omega)] at h
  rw [if_neg (fun hc => by
    rcases hc.2 with hne | hne
    · exact hne (by rw [htail])
    · exact hne (by rw [htail]))] at h
  rw [if_pos ⟨congrArg Coordinate.x hfood, congrArg Coordinate.y hfood⟩] at h
  cases hgf : generateFood rands (moveHead nextDir head :: head :: restSnake) with
  | none =>
    simp only [hgf] at h
    exact Option.noConfusion h
  | some newFood =>
    simp only [hgf] at h
    split at h <;>
    · simp only [Option.some.injEq, Prod.mk.injEq] at h
      obtain ⟨rfl, rfl⟩ := h
      exact ⟨hstatus, by simp [hsnake], rfl⟩

/-- The state the tick reaches from `tailEatState`: still PLAYING, grown by
one segment (head duplicating the old tail), score and high score 1. -/
def tailEatNext : GameState :=
  { snake := [⟨5, 6⟩, ⟨5, 5⟩, ⟨5, 6⟩], food := ⟨0, 0⟩, direction := Direction.DOWN, score := 1,
    highScore := 1, status := GameStatus.PLAYING, speed := 148, deathReason := none }

/-- Witness for the amended claim C1 at `tailEatState`. -/
theorem tick_tail_eat_survives_witness :
    tailEatNext.status = GameStatus.PLAYING ∧
    tailEatNext.snake.length = tailEatState.snake.length + 1 ∧
    tailEatNext.score = tailEatState.score + 1 :=
  tick_tail_eat_survives Direction.DOWN [⟨0, 0⟩] tailEatState ⟨5, 5⟩ [⟨5, 6⟩]
    (by decide) (by decide) (by decide) (by decide) (by decide) tailEatNext [1] (by decide)

/-- Claim C9: from a PLAYING state with snake `[(10,10),(10,11),(10,12)]`,
heading UP, an empty direction buffer (pending heading UP) and the food not at
`(10,9)`, one tick slides the snake to `[(10,9),(10,10),(10,11)]` and leaves
every other field (in particular score and tick interval) unchanged. -/
theorem tick_scenario_a (rands : List Coordinate) (prev : GameState)
    (hstatus : prev.status = GameStatus.PLAYING)
    (hsnake : prev.snake = [⟨10, 10⟩, ⟨10, 11⟩, ⟨10, 12⟩])
    (hdir : prev.direction = Direction.UP)
    (hfood : prev.food ≠ ⟨10, 9⟩) :
    tick Direction.UP rands prev =
      some ({ prev with
              snake := [⟨10, 9⟩, ⟨10, 10⟩, ⟨10, 11⟩]
              direction := Direction.UP }, []) := by
  unfold tick
  rw [if_neg (fun hc => hc hstatus), hsnake]
  show tickPlaying Direction.UP rands prev ⟨10, 10⟩ [⟨10, 11⟩, ⟨10, 12⟩] = _
  unfold tickPlaying
  rw [if_neg (by decide)]
  rw [if_neg (fun hc => absurd hc.1 (by decide))]
  rw [if_neg (fun hc => hfood (Coordinate.ext hc.1.symm hc.2.symm))]
  rw [if_neg (by decide)]
  rfl

/-- The concrete PLAYING start position of Scenario A (the initial snake with
the game running and food away from the path). -/
def scenarioAState : GameState :=
  { INITIAL_STATE with status := GameStatus.PLAYING }

/-- Witness for claim C9 at `scenarioAState`. -/
theorem tick_scenario_a_witness :
    tick Direction.UP [] scenarioAState =
      some ({ scenarioAState with
              snake := [⟨10, 9⟩, ⟨10, 10⟩, ⟨10, 11⟩]
              direction := Direction.UP }, []) :=
  tick_scenario_a [] scenarioAState (by decide) (by decide) (by decide) (by decide)

/-- Claim C7: the high score is monotonically non-decreasing under a tick,
under pause toggling and under a restart; and on any tick that raises the
score above the prior high score (starting from a consistent state in which
score ≤ high score), the high score is set to the new score and the
persistence collaborator is called exactly once, with exactly that value. -/
theorem highScore_monotone_persist :
    (∀ (nextDir : Direction) (rands : List Coordinate) (prev next : GameState)
        (saves : List Nat), tick nextDir rands prev = some (next, saves) →
        prev.highScore ≤ next.highScore ∧
          (prev.score ≤ prev.highScore → prev.highScore < next.score →
            next.highScore = next.score ∧ saves = [next.score])) ∧
    (∀ s : GameState, (pauseGame s).highScore = s.highScore) ∧
    (∀ (rands : List Coordinate) (prev next : GameState) (d : Direction),
        startGame rands prev = some (next, d) → next.highScore = prev.highScore) := by
  refine ⟨?_, ?_, ?_⟩
  · intro nextDir rands prev next saves h
    unfold tick at h
    split at h
    · simp only [Option.some.injEq, Prod.mk.injEq] at h
      obtain ⟨rfl, rfl⟩ := h
      exact ⟨le_refl _, fun h1 h2 => absurd h2 (not_lt.mpr h1)⟩
    · split at h
      · exact Option.noConfusion h
      · rename_i head restSnake heq
        unfold tickPlaying at h
        dsimp only at h
        split at h
        · simp only [Option.some.injEq, Prod.mk.injEq] at h
          obtain ⟨rfl, rfl⟩ := h
          exact ⟨le_refl _, fun h1 h2 => absurd h2 (not_lt.mpr h1)⟩
        · split at h
          · simp only [Option.some.injEq, Prod.mk.injEq] at h
            obtain ⟨rfl, rfl⟩ := h
            exact ⟨le_refl _, fun h1 h2 => absurd h2 (not_lt.mpr h1)⟩
          · split at h
            · -- eating path
              cases hgf : generateFood rands
                  (moveHead nextDir head :: head :: restSnake) with
              | none =>
                simp only [hgf] at h
                exact Option.noConfusion h
              | some newFood =>
                simp only [hgf] at h
                split at h
                · rename_i hgt
                  simp only [Option.some.injEq, Prod.mk.injEq] at h
                  obtain ⟨rfl, rfl⟩ := h
                  exact ⟨le_of_lt hgt, fun h1 h2 => ⟨rfl, rfl⟩⟩
                · rename_i hle
                  simp only [Option.some.injEq, Prod.mk.injEq] at h
                  obtain ⟨rfl, rfl⟩ := h
                  exact ⟨le_refl _, fun h1 h2 => absurd h2 hle⟩
            · -- non-eating path
              split at h
              · simp only [Option.some.injEq, Prod.mk.injEq] at h
                obtain ⟨rfl, rfl⟩ := h
                exact ⟨le_refl _, fun h1 h2 => absurd h2 (not_lt.mpr h1)⟩
              · simp only [Option.some.injEq, Prod.mk.injEq] at h
                obtain ⟨rfl, rfl⟩ := h
                exact ⟨le_refl _, fun h1 h2 => absurd h2 (not_lt.mpr h1)⟩
  · intro s
    unfold pauseGame
    split_ifs <;> rfl
  · intro rands prev next d h
    unfold startGame at h
    cases hgf : generateFood rands INITIAL_SNAKE with
    | none =>
      simp only [hgf] at h
      exact Option.noConfusion h
    | some f =>
      simp only [hgf] at h
      simp only [Option.some.injEq, Prod.mk.injEq] at h
      obtain ⟨rfl, rfl⟩ := h
      rfl

/-- The concrete PLAYING state used to witness claims about eating ticks:
the initial snake, game running, food directly above the head at `(10,9)`. -/
def playingEatState : GameState :=
  { INITIAL_STATE with status := GameStatus.PLAYING, food := ⟨10, 9⟩ }

/-- The state one tick after `playingEatState` with random draw `(0,0)`:
grown snake, relocated food, score and high score 1, interval shortened. -/
def playingEatNext : GameState :=
  { snake := [⟨10, 9⟩, ⟨10, 10⟩, ⟨10, 11⟩, ⟨10, 12⟩], food := ⟨0, 0⟩,
    direction := Direction.UP, score := 1, highScore := 1, status := GameStatus.PLAYING,
    speed := 148, deathReason := none }

/-- Witness for claim C7 at the eating tick from `playingEatState`. -/
theorem highScore_monotone_persist_witness :
    playingEatState.highScore ≤ playingEatNext.highScore ∧
    playingEatNext.highScore = playingEatNext.score ∧
    [1] = [playingEatNext.score] :=
  have h := highScore_monotone_persist.1 Direction.UP [⟨0, 0⟩] playingEatState
    playingEatNext [1] (by decide)
  ⟨h.1, h.2 (by decide) (by decide)⟩

/-- Witness for claim C6 at the eating tick from `playingEatState`. -/
theorem tick_eat_growth_witness :
    playingEatNext.status = GameStatus.PLAYING ∧
    playingEatNext.score = playingEatState.score + 1 ∧
    playingEatNext.snake.length = playingEatState.snake.length + 1 ∧
    playingEatNext.food ∉ playingEatNext.snake ∧
    playingEatNext.speed = max MIN_SPEED (playingEatState.speed - SPEED_DECREMENT) ∧
    MIN_SPEED ≤ playingEatNext.speed :=
  tick_eat_growth Direction.UP [⟨0, 0⟩] playingEatState ⟨10, 10⟩ [⟨10, 11⟩, ⟨10, 12⟩]
    (by decide) (by decide) (by decide) (by decide) (by decide) playingEatNext [1] (by decide)

/-- Claim C10: in a PLAYING state, if a tick ends in GAME_OVER with death
cause SELF, every field of the game state other than status and deathReason
is unchanged; in particular the consumed pending heading is not committed to
the direction field. -/
theorem tick_self_death_frame (nextDir : Direction) (rands : List Coordinate)
    (prev next : GameState) (saves : List Nat)
    (hstatus : prev.status = GameStatus.PLAYING)
    (h : tick nextDir rands prev = some (next, saves))
    (hgo : next.status = GameStatus.GAME_OVER)
    (hself : next.deathReason = some DeathReason.SELF) :
    next.snake = prev.snake ∧ next.food = prev.food ∧ next.score = prev.score ∧
      next.speed = prev.speed ∧ next.highScore = prev.highScore ∧
      next.direction = prev.direction := by
  unfold tick at h
  rw [if_neg (fun hc => hc hstatus)] at h
  split at h
  · exact Option.noConfusion h
  · rename_i head restSnake heq
    unfold tickPlaying at h
    dsimp only at h
    split at h
    · -- wall death: the death reason contradicts hself
      simp only [Option.some.injEq, Prod.mk.injEq] at h
      obtain ⟨rfl, rfl⟩ := h
      exact absurd hself (by simp)
    · split at h
      · -- self death at the pre-check: everything else is carried over
        simp only [Option.some.injEq, Prod.mk.injEq] at h
        obtain ⟨rfl, rfl⟩ := h
        exact ⟨rfl, rfl, rfl, rfl, rfl, rfl⟩
      · split at h
        · -- eating path: the committed state is still PLAYING, contradicting hgo
          cases hgf : generateFood rands (moveHead nextDir head :: head :: restSnake) with
          | none =>
            simp only [hgf] at h
            exact Option.noConfusion h
          | some newFood =>
            simp only [hgf] at h
            split at h <;>
            · simp only [Option.some.injEq, Prod.mk.injEq] at h
              obtain ⟨rfl, rfl⟩ := h
              have hgo' : prev.status = GameStatus.GAME_OVER := hgo
              rw [hstatus] at hgo'
              exact GameStatus.noConfusion hgo'
        · -- non-eating path
          split at h
          · -- self death at the post-pop re-check
            simp only [Option.some.injEq, Prod.mk.injEq] at h
            obtain ⟨rfl, rfl⟩ := h
            exact ⟨rfl, rfl, rfl, rfl, rfl, rfl⟩
          · -- slide commit: still PLAYING, contradicting hgo
            simp only [Option.some.injEq, Prod.mk.injEq] at h
            obtain ⟨rfl, rfl⟩ := h
            have hgo' : prev.status = GameStatus.GAME_OVER := hgo
            rw [hstatus] at hgo'
            exact GameStatus.noConfusion hgo'

/-- The Scenario D style loop-shaped state used to witness claims C4 and C10:
moving DOWN from `(5,5)` lands on the non-tail body cell `(5,6)`. -/
def loopState : GameState :=
  { snake := [⟨5, 5⟩, ⟨5, 6⟩, ⟨5, 7⟩, ⟨4, 7⟩, ⟨4, 6⟩], food := ⟨0, 0⟩,
    direction := Direction.DOWN, score := 0, highScore := 0, status := GameStatus.PLAYING,
    speed := 150, deathReason := none }

/-- Witness for claim C4 at `loopState`. -/
theorem tick_self_death_non_tail_witness :
    tick Direction.DOWN [] loopState =
      some ({ loopState with
              status := GameStatus.GAME_OVER
              deathReason := some DeathReason.SELF }, []) :=
  tick_self_death_non_tail Direction.DOWN [] loopState ⟨5, 5⟩
    [⟨5, 6⟩, ⟨5, 7⟩, ⟨4, 7⟩, ⟨4, 6⟩]
    (by decide) (by decide) (by decide) (by decide) (by decide) (by decide)

/-- Witness for claim C10 at the SELF death from `loopState`. -/
theorem tick_self_death_frame_witness :
    ({ loopState with
       status := GameStatus.GAME_OVER
       deathReason := some DeathReason.SELF } : GameState).snake = loopState.snake ∧
    ({ loopState with
       status := GameStatus.GAME_OVER
       deathReason := some DeathReason.SELF } : GameState).food = loopState.food ∧
    ({ loopState with
       status := GameStatus.GAME_OVER
       deathReason := some DeathReason.SELF } : GameState).score = loopState.score ∧
    ({ loopState with
       status := GameStatus.GAME_OVER
       deathReason := some DeathReason.SELF } : GameState).speed = loopState.speed ∧
    ({ loopState with
       status := GameStatus.GAME_OVER
       deathReason := some DeathReason.SELF } : GameState).highScore = loopState.highScore ∧
    ({ loopState with
       status := GameStatus.GAME_OVER
       deathReason := some DeathReason.SELF } : GameState).direction = loopState.direction :=
  tick_self_death_frame Direction.DOWN [] loopState
    ({ loopState with status := GameStatus.GAME_OVER, deathReason := some DeathReason.SELF })
    [] (by decide) (by decide) (by decide) (by decide)

/-- The tail-chase state used to witness claim C2: a two-segment snake moving
DOWN onto its own tail with the food elsewhere. -/
def tailChaseState : GameState :=
  { snake := [⟨5, 5⟩, ⟨5, 6⟩], food := ⟨0, 0⟩, direction := Direction.DOWN, score := 0,
    highScore := 0, status := GameStatus.PLAYING, speed := 150, deathReason := none }

/-- Witness for claim C2 at `tailChaseState`. -/
theorem tick_tail_chase_survives_witness :
    ∃ next : GameState, tick Direction.DOWN [] tailChaseState = some (next, []) ∧
      next.status = GameStatus.PLAYING ∧
      next.snake.length = tailChaseState.snake.length :=
  tick_tail_chase_survives Direction.DOWN [] tailChaseState ⟨5, 5⟩ [⟨5, 6⟩]
    (by decide) (by decide) (by decide) (by decide) (by decide) (by decide)

/-- The Scenario C style state used to witness claim C3: head at `(0,5)`
moving LEFT, off the board. -/
def wallState : GameState :=
  { snake := [⟨0, 5⟩, ⟨1, 5⟩], food := ⟨5, 5⟩, direction := Direction.LEFT, score := 0,
    highScore := 0, status := GameStatus.PLAYING, speed := 150, deathReason := none }

/-- Witness for claim C3 at `wallState`. -/
theorem tick_wall_death_witness :
    tick Direction.LEFT [] wallState =
      some ({ wallState with
              status := GameStatus.GAME_OVER
              deathReason := some DeathReason.WALL }, []) :=
  tick_wall_death Direction.LEFT [] wallState ⟨0, 5⟩ [⟨1, 5⟩]
    (by decide) (by decide) (by decide)
